import Mathlib

/-!
Verification of the comp-scoring and valuation core of `src/app.py`
(the `/run_comps` endpoint and its helpers `days_since`, `score_comp`,
the `REHAB_PSF` / `MAO_TIERS` tables and the valuation arithmetic).

Modelling conventions:
* Python numbers are modelled as exact rationals (`ℚ`); the spec states that
  intermediate ratios retain full precision, and Python's `round` (used on
  final dollar values) is round-half-to-even, modelled by `roundHalfEven`.
* `math.log` is the real logarithm, so the similarity score lives in `ℝ`.
* A parsed calendar date is represented by its (absolute) day number, an
  integer; `datetime.date` subtraction `(a - b).days` is integer subtraction.
  The current UTC date at evaluation time is the explicit parameter `today`.
* Optional / missing JSON and dict fields are `Option` values, and Python
  truthiness ("x or default", "if x") is modelled field-type by field-type:
  `none` and `0` (and the empty string) are falsy.
* `statistics.median` of an empty list raises `StatisticsError`; this is the
  "insufficient data" failure surfaced when no comparable survives filtering,
  modelled as `Except.error ValError.insufficientData`.
* `str.lower` is modelled for ASCII letters (`pyLower`), which is exact on
  every condition / tier tag the endpoint compares against.
The PDF rendering, Telegram transport and the hardcoded stub comp list are
external collaborators; `run_comps` is parameterised by the raw comp list.
-/

namespace CompsBot

/-- Python truthiness of an optional integer field: `None` and `0` are falsy. -/
def intTruthy : Option ℤ → Bool
  | none => false
  | some n => n != 0

/-- Python `x or d` for an optional integer field (`None` and `0` fall back). -/
def pyOrInt (v : Option ℤ) (d : ℤ) : ℤ :=
  match v with
  | none => d
  | some n => if n = 0 then d else n

/-- Python `x or d` for an optional numeric field (`None` and `0.0` fall back). -/
def pyOrRat (v : Option ℚ) (d : ℚ) : ℚ :=
  match v with
  | none => d
  | some q => if q = 0 then d else q

/-- Python `x or d` for an optional string field (`None` and `""` fall back). -/
def pyOrStr (v : Option String) (d : String) : String :=
  match v with
  | none => d
  | some s => if s = "" then d else s

/-- ASCII lowercasing of one character, as `str.lower` acts on ASCII. -/
def lowerChar (c : Char) : Char :=
  if 'A' ≤ c ∧ c ≤ 'Z' then Char.ofNat (c.toNat + 32) else c

/-- Python `str.lower()` (restricted to its ASCII action, which covers every
tag the endpoint compares: condition and tier names). -/
def pyLower (s : String) : String := String.mk (s.data.map lowerChar)

/-- Python's built-in `round` to an integer: round half to even. -/
def roundHalfEven {α : Type*} [LinearOrderedField α] [FloorRing α] (x : α) : ℤ :=
  let n := ⌊x⌋
  let r := x - (n : α)
  if r < 1/2 then n
  else if 1/2 < r then n + 1
  else if n % 2 = 0 then n else n + 1

/-- The subject property dict built by `run_comps` (src/app.py lines 172-178):
  every field is present (defaults already substituted). -/
structure Subject where
  address : String
  beds : ℤ
  baths : ℚ
  sqft : ℤ
  year : ℤ
deriving DecidableEq

/-- A raw comparable-sale record as returned by the comparable source
(src/app.py `fetch_portal_comps` shape): `sold_date` is already parsed to a
day number (`dateutil` parsing is the external collaborator). -/
structure RawComp where
  soldPrice : ℚ
  soldDay : ℤ
  beds : Option ℤ
  baths : Option ℚ
  sqft : Option ℤ
  year : Option ℤ
deriving DecidableEq

/-- A comparable after the normalisation loop of `run_comps` (src/app.py
lines 182-188) added `days_since_sale`, `ppsf` and `score`.  The `why`
rationale string and the `cash_status` tag are pass-through annotations with
no effect on the valuation and are not modelled. -/
structure CompRec where
  soldPrice : ℚ
  soldDay : ℤ
  beds : Option ℤ
  baths : Option ℚ
  sqft : Option ℤ
  year : Option ℤ
  daysSinceSale : ℤ
  ppsf : Option ℚ
  score : ℤ

/-- `days_since` (src/app.py lines 37-39): current UTC date minus parsed sold
date, in days.  No clamping is performed. -/
def days_since (today soldDay : ℤ) : ℤ := today - soldDay

/-- `score_comp` (src/app.py lines 41-48). -/
noncomputable def score_comp (subj : Subject) (comp : CompRec) : ℤ :=
  let days : ℤ := comp.daysSinceSale
  let bedDiff : ℤ := |comp.beds.getD 0 - subj.beds|
  let bathDiff : ℚ := |comp.baths.getD 0 - subj.baths|
  let yrDiff : ℤ :=
    if subj.year ≠ 0 ∧ comp.year.getD 0 ≠ 0 then |comp.year.getD 0 - subj.year| else 0
  let csq : ℤ := pyOrInt comp.sqft 1
  let ssq : ℤ := max 1 (if subj.sqft = 0 then 1 else subj.sqft)
  let sizeTerm : ℝ := |Real.log ((csq : ℝ) / (ssq : ℝ))|
  let score : ℝ := 100 - 20 * ((min days 365 : ℤ) : ℝ) / 365 - 30 * sizeTerm
      - 8 * ((bedDiff : ℤ) : ℝ) - 10 * ((bathDiff : ℚ) : ℝ)
      - 10 * ((min yrDiff 60 : ℤ) : ℝ) / 60
  max 0 (roundHalfEven score)

/-- The `ppsf` field set at src/app.py line 184:
`sold_price / sqft` when `sqft` is truthy, else `None`. -/
def pyPpsf (r : RawComp) : Option ℚ :=
  if intTruthy r.sqft then some (r.soldPrice / ((r.sqft.getD 0 : ℤ) : ℚ)) else none

/-- One iteration of the normalisation loop (src/app.py lines 182-188):
augment a raw comparable with `days_since_sale`, `ppsf` and `score`. -/
noncomputable def augment (today : ℤ) (subject : Subject) (r : RawComp) : CompRec :=
  let base : CompRec :=
    { soldPrice := r.soldPrice, soldDay := r.soldDay, beds := r.beds, baths := r.baths,
      sqft := r.sqft, year := r.year,
      daysSinceSale := days_since today r.soldDay,
      ppsf := pyPpsf r, score := 0 }
  { base with score := score_comp subject base }

/-- Truthiness of the `ppsf` field, as tested by the filter at src/app.py
line 190: `None` and `0.0` are falsy. -/
def ppsfTruthy (c : CompRec) : Bool :=
  match c.ppsf with
  | none => false
  | some q => q != 0

/-- The filter at src/app.py line 190: keep comparables with truthy `ppsf`. -/
def filterComps (l : List CompRec) : List CompRec := l.filter ppsfTruthy

/-- The sort key comparison at src/app.py line 191: Python's stable sort on the
key `(-score, days_since_sale)`, i.e. score descending then days ascending. -/
def compLE (a b : CompRec) : Bool :=
  decide (b.score < a.score ∨ (a.score = b.score ∧ a.daysSinceSale ≤ b.daysSinceSale))

/-- The (stable) sort at src/app.py line 191. -/
def sortComps (l : List CompRec) : List CompRec := l.mergeSort compLE

/-- The body of `statistics.median` on already-sorted data: odd length takes
the middle element, even length the mean of the two middle elements, empty
data has no median (`statistics.median` raises `StatisticsError`). -/
def pymedianSorted (s : List ℚ) : Option ℚ :=
  if s.length = 0 then none
  else if s.length % 2 = 1 then some (s.getD (s.length / 2) 0)
  else some ((s.getD (s.length / 2 - 1) 0 + s.getD (s.length / 2) 0) / 2)

/-- `statistics.median`: sort the data, then pick the middle. -/
def pymedian (l : List ℚ) : Option ℚ :=
  pymedianSorted (l.mergeSort (fun a b => decide (a ≤ b)))

/-- The `ppsf` values of a comparable list, as gathered at src/app.py line 193
(after the filter every `ppsf` is present). -/
def ppsfList (comps : List CompRec) : List ℚ := comps.map (fun c => c.ppsf.getD 0)

/-- `REHAB_PSF` (src/app.py line 31) together with the `.get(condition,
REHAB_PSF["fair"])` lookup of line 196: unknown tags take the fair rate. -/
def REHAB_PSF (condition : String) : ℚ :=
  if condition = "excellent" then 20
  else if condition = "fair" then 85/2
  else if condition = "poor" then 85
  else 85/2

/-- `MAO_TIERS` (src/app.py line 32): aggressive, standard, hot. -/
def MAO_TIERS : List ℚ := [65/100, 70/100, 75/100]

/-- The tier label `f-string` of src/app.py line 203: `int(t*100)` then `%`. -/
def tierLabel (t : ℚ) : String := toString ⌊t * 100⌋ ++ "%"

/-- One row of the MAO table (src/app.py lines 199-203). -/
structure MaoRow where
  tier : String
  buyer_max : ℤ
  your_mao : ℤ
deriving DecidableEq

/-- `tier_map` lookup with default (src/app.py lines 208-209). -/
def tier_map (highlight : String) : String :=
  if highlight = "aggressive" then "65%"
  else if highlight = "standard" then "70%"
  else if highlight = "hot" then "75%"
  else "65%"

/-- The `highlight_idx` lookup of src/app.py line 210 (its key is always one
of the three labels `tier_map` can produce). -/
def labelIdx (label : String) : ℕ :=
  if label = "65%" then 0 else if label = "70%" then 1 else 2

/-- The failure the valuation can surface: `statistics.median` raising
`StatisticsError` on empty data when no comparable survives filtering (the
spec's InsufficientDataError). -/
inductive ValError
  | insufficientData
deriving DecidableEq

/-- The valuation figures computed by `run_comps` (src/app.py lines 190-211),
before PDF rendering and summary formatting. -/
structure CompValuation where
  comps : List CompRec
  arv : ℤ
  rehab_cost : ℤ
  mao_rows : List MaoRow
  dispo_price : ℤ
  highlight_mao : ℤ

/-- src/app.py lines 193-211, given the median ppsf of the surviving
comparables: ARV, rehab cost, MAO tiers, dispo price and highlighted MAO. -/
def valuationFigures (subject : Subject) (comps : List CompRec) (condition : String)
    (assignment_fee : ℤ) (highlight : String) (median_ppsf : ℚ) : CompValuation :=
  let arv : ℤ := roundHalfEven (median_ppsf * (subject.sqft : ℚ))
  let rehab_psf : ℚ := REHAB_PSF condition
  let rehab_cost : ℤ := roundHalfEven ((subject.sqft : ℚ) * rehab_psf)
  let mao_rows : List MaoRow := MAO_TIERS.map (fun t =>
    let buyer_max : ℤ := roundHalfEven ((arv : ℚ) * t - (rehab_cost : ℚ))
    { tier := tierLabel t, buyer_max := buyer_max, your_mao := buyer_max - assignment_fee })
  let cash_ppsf : ℚ := median_ppsf * (95/100)
  let dispo_price : ℤ := roundHalfEven (cash_ppsf * (subject.sqft : ℚ))
  let highlight_label := tier_map highlight
  let highlight_mao := (mao_rows.getD (labelIdx highlight_label) ⟨"", 0, 0⟩).your_mao
  ⟨comps, arv, rehab_cost, mao_rows, dispo_price, highlight_mao⟩

/-- src/app.py lines 190-211: filter, sort, median ppsf (a hard failure on
empty data), then the valuation figures. -/
def runValuation (subject : Subject) (comps0 : List CompRec) (condition : String)
    (assignment_fee : ℤ) (highlight : String) : Except ValError CompValuation :=
  let comps := sortComps (filterComps comps0)
  match pymedian (ppsfList comps) with
  | none => Except.error ValError.insufficientData
  | some median_ppsf =>
    Except.ok (valuationFigures subject comps condition assignment_fee highlight median_ppsf)

/-- The optional `subject_overrides` object of the request payload. -/
structure Overrides where
  beds : Option ℤ
  baths : Option ℚ
  sqft : Option ℤ
  year : Option ℤ
deriving DecidableEq

/-- The JSON payload of a `/run_comps` request (src/app.py lines 165-171). -/
structure Payload where
  address : String
  condition : Option String
  assignment_fee : Option ℤ
  highlight_tier : Option String
  subject_overrides : Option Overrides
deriving DecidableEq

/-- The subject dict built at src/app.py lines 171-178: `subject_overrides or
an empty dict`, each field `int(so.get(k) or default)`. -/
def mkSubject (address : String) (so0 : Option Overrides) : Subject :=
  let so := so0.getD ⟨none, none, none, none⟩
  { address := address
    beds := pyOrInt so.beds 3
    baths := pyOrRat so.baths 2
    sqft := pyOrInt so.sqft 1627
    year := pyOrInt so.year 1992 }

/-- `run_comps` (src/app.py lines 164-211): default-fill the request fields,
normalise and score the raw comparables, then run the valuation.  `today` is
the current UTC date (day number) and `raw` the comparable source's output. -/
noncomputable def run_comps (today : ℤ) (raw : List RawComp) (p : Payload) :
    Except ValError CompValuation :=
  let condition := pyLower (pyOrStr p.condition "fair")
  let assignment_fee := pyOrInt p.assignment_fee 20000
  let highlight := pyLower (pyOrStr p.highlight_tier "aggressive")
  let subject := mkSubject p.address p.subject_overrides
  let comps := raw.map (augment today subject)
  runValuation subject comps condition assignment_fee highlight

variable {α : Type*} [LinearOrderedField α] [FloorRing α]

theorem roundHalfEven_eq_low (x : α) (n : ℤ) (h1 : (n : α) ≤ x) (h2 : x < (n : α) + 1/2) :
    roundHalfEven x = n := by
  have hf : ⌊x⌋ = n := Int.floor_eq_iff.mpr ⟨h1, by linarith⟩
  have hr : x - ((⌊x⌋ : ℤ) : α) < 1/2 := by rw [hf]; linarith
  simp only [roundHalfEven]
  rw [if_pos hr, hf]

theorem roundHalfEven_eq_high (x : α) (n : ℤ) (h1 : (n : α) + 1/2 < x) (h2 : x < (n : α) + 1) :
    roundHalfEven x = n + 1 := by
  have hf : ⌊x⌋ = n := Int.floor_eq_iff.mpr ⟨by linarith, by linarith⟩
  have hr1 : ¬ (x - ((⌊x⌋ : ℤ) : α) < 1/2) := by rw [hf]; push_neg; linarith
  have hr2 : 1/2 < x - ((⌊x⌋ : ℤ) : α) := by rw [hf]; linarith
  simp only [roundHalfEven]
  rw [if_neg hr1, if_pos hr2, hf]

theorem roundHalfEven_tie (x : α) (n : ℤ) (h : x = (n : α) + 1/2) :
    roundHalfEven x = if n % 2 = 0 then n else n + 1 := by
  have hf : ⌊x⌋ = n := Int.floor_eq_iff.mpr ⟨by rw [h]; linarith, by rw [h]; linarith⟩
  have hr : x - ((⌊x⌋ : ℤ) : α) = 1/2 := by rw [hf, h]; ring
  have hr1 : ¬ (x - ((⌊x⌋ : ℤ) : α) < 1/2) := by rw [hr]; exact lt_irrefl _
  have hr2 : ¬ (1/2 < x - ((⌊x⌋ : ℤ) : α)) := by rw [hr]; exact lt_irrefl _
  simp only [roundHalfEven]
  rw [if_neg hr1, if_neg hr2, hf]

theorem roundHalfEven_intCast (n : ℤ) : roundHalfEven ((n : ℤ) : α) = n :=
  roundHalfEven_eq_low _ n le_rfl (by linarith)

theorem abs_roundHalfEven_sub (x : α) : |(roundHalfEven x : α) - x| ≤ 1/2 := by
  have h1 : ((⌊x⌋ : ℤ) : α) ≤ x := Int.floor_le x
  have h2 : x < ((⌊x⌋ : ℤ) : α) + 1 := Int.lt_floor_add_one x
  simp only [roundHalfEven]
  split
  · rename_i hc
    rw [abs_le]; constructor <;> linarith
  · rename_i hc
    push_neg at hc
    split
    · rename_i hc2
      rw [abs_le]; constructor <;> push_cast <;> linarith
    · rename_i hc2
      push_neg at hc2
      have heq : x - ((⌊x⌋ : ℤ) : α) = 1/2 := le_antisymm hc2 hc
      split <;> (rw [abs_le]; constructor <;> push_cast <;> linarith)

theorem roundHalfEven_two_mul (x : α) : |roundHalfEven (2*x) - 2 * roundHalfEven x| ≤ 1 := by
  have h1 := abs_roundHalfEven_sub (2*x)
  have h2 := abs_roundHalfEven_sub x
  rw [abs_le] at h1 h2
  have key : |((roundHalfEven (2*x) - 2 * roundHalfEven x : ℤ) : α)| ≤ 3/2 := by
    rw [abs_le]; push_cast; constructor <;> linarith
  rw [← Int.cast_abs] at key
  by_contra hcon
  push_neg at hcon
  have h3 : (2 : ℤ) ≤ |roundHalfEven (2*x) - 2 * roundHalfEven x| := hcon
  have h4 : ((2 : ℤ) : α) ≤ ((|roundHalfEven (2*x) - 2 * roundHalfEven x| : ℤ) : α) :=
    Int.cast_le.mpr h3
  have h5 : ((2 : ℤ) : α) = (2 : α) := by norm_num
  rw [h5] at h4
  linarith

/-- Whether a raw comparable survives the line-190 filter: its price-per-area
is computable and nonzero.  This depends only on the raw record, not on the
subject or evaluation date. -/
def rawKept (r : RawComp) : Bool :=
  match pyPpsf r with
  | none => false
  | some q => q != 0

/-- Partial-correctness view of an endpoint result: the property holds of the
valuation whenever one is produced. -/
def onOk (e : Except ValError CompValuation) (P : CompValuation → Prop) : Prop :=
  match e with
  | Except.error _ => True
  | Except.ok v => P v

/-- A request equal to `p` except that the subject sqft override is `A`. -/
def pWithSqft (p : Payload) (A : ℤ) : Payload :=
  let so := p.subject_overrides.getD ⟨none, none, none, none⟩
  { p with subject_overrides := some { so with sqft := some A } }

/-- A raw comparable with no area field: no computable price-per-unit-area. -/
def rawNoArea : RawComp := ⟨650000, 0, some 3, some 2, none, some 1992⟩

/-- A raw comparable selling at 300 dollars per square foot. -/
def rawPpsf300 : RawComp := ⟨30000, 0, some 3, some 2, some 100, some 1992⟩

/-- A raw comparable selling at exactly 357.66 dollars per square foot (the
spec's worked example median). -/
def rawPpsf35766 : RawComp := ⟨35766, 0, some 3, some 2, some 100, some 1992⟩

/-- A raw comparable selling at 0.25 dollars per square foot. -/
def rawPpsfQuarter : RawComp := ⟨1, 0, none, none, some 4, none⟩

/-- A raw comparable selling at 100 dollars per square foot. -/
def rawPpsf100 : RawComp := ⟨400, 0, none, none, some 4, none⟩

/-- A raw comparable that sold for nothing (price 0, positive area). -/
def rawZeroPrice : RawComp := ⟨0, 0, none, none, some 4, none⟩

/-- A raw comparable with area recorded as 0. -/
def rawZeroArea : RawComp := ⟨100, 0, none, none, some 0, none⟩

/-- A request with only an address; every optional field is absent. -/
def payloadBare : Payload := ⟨"17267 Ventana Dr, Boca Raton, FL 33487", none, none, none, none⟩

/-- The spec's worked-example request: default subject, condition and tier,
assignment fee 20000. -/
def payloadExample : Payload := ⟨"301 Palm Way", none, some 20000, none, none⟩

/-- The default subject profile (address plus beds 3, baths 2, sqft 1627,
year 1992). -/
def subjectDefault : Subject := mkSubject "17267 Ventana Dr, Boca Raton, FL 33487" none

/-- A raw comparable identical to the default subject, sold 365 days after the
evaluation date (a future sold date). -/
def rawFutureSale : RawComp := ⟨650000, 365, some 3, some 2, some 1627, some 1992⟩

/-- A raw comparable identical to the default subject, sold on the evaluation
date. -/
def rawIdentical : RawComp := ⟨650000, 0, some 3, some 2, some 1627, some 1992⟩

theorem compLE_trans : ∀ a b c : CompRec, compLE a b = true → compLE b c = true →
    compLE a c = true := by
  intro a b c hab hbc
  simp only [compLE, decide_eq_true_eq] at *
  omega

theorem compLE_total : ∀ a b : CompRec, (compLE a b || compLE b a) = true := by
  intro a b
  simp only [compLE, Bool.or_eq_true, decide_eq_true_eq]
  omega

/-- The sorted list at src/app.py line 191 is ordered by score descending,
ties by days-since-sale ascending. -/
theorem sortComps_pairwise (l : List CompRec) :
    (sortComps l).Pairwise
      (fun a b => b.score < a.score ∨ (a.score = b.score ∧ a.daysSinceSale ≤ b.daysSinceSale)) := by
  have h := List.sorted_mergeSort compLE_trans compLE_total l
  exact h.imp (fun hab => by simpa [compLE] using hab)

theorem sortComps_perm (l : List CompRec) : (sortComps l).Perm l :=
  List.mergeSort_perm l compLE

theorem sortComps_eq_nil_iff (l : List CompRec) : sortComps l = [] ↔ l = [] := by
  constructor
  · intro h
    have hlen := (sortComps_perm l).length_eq
    rw [h] at hlen
    exact List.length_eq_zero.mp hlen.symm
  · intro h; rw [h]; exact List.mergeSort_nil

theorem pymedianSorted_eq_none_iff (s : List ℚ) : pymedianSorted s = none ↔ s = [] := by
  unfold pymedianSorted
  split
  · rename_i h
    simpa using List.length_eq_zero.mp h
  · rename_i h
    split <;> simpa using fun hs => h (by rw [hs]; rfl)

theorem pymedian_eq_none_iff (l : List ℚ) : pymedian l = none ↔ l = [] := by
  unfold pymedian
  rw [pymedianSorted_eq_none_iff]
  constructor
  · intro h
    have hlen := (List.mergeSort_perm l (fun a b => decide (a ≤ b))).length_eq
    rw [h] at hlen
    exact List.length_eq_zero.mp hlen.symm
  · intro h; rw [h]; exact List.mergeSort_nil

theorem pymedian_congr {l l' : List ℚ} (h : l.Perm l') : pymedian l = pymedian l' := by
  have hs : l.mergeSort (fun a b => decide (a ≤ b)) = l'.mergeSort (fun a b => decide (a ≤ b)) :=
    List.eq_of_perm_of_sorted
      ((List.mergeSort_perm l _).trans (h.trans (List.mergeSort_perm l' _).symm))
      (List.sorted_mergeSort' l) (List.sorted_mergeSort' l')
  unfold pymedian
  rw [hs]

theorem pymedian_singleton (q : ℚ) : pymedian [q] = some q := by
  simp [pymedian, List.mergeSort_singleton, pymedianSorted]

theorem pymedian_ne_none {l : List ℚ} (h : l ≠ []) : ∃ m, pymedian l = some m := by
  cases hm : pymedian l with
  | none => exact absurd ((pymedian_eq_none_iff l).mp hm) h
  | some m => exact ⟨m, rfl⟩

/-- The median at src/app.py line 193 is taken over the sorted surviving
comparables, but its value only depends on the surviving multiset. -/
theorem median_sortComps (comps0 : List CompRec) :
    pymedian (ppsfList (sortComps (filterComps comps0)))
      = pymedian (ppsfList (filterComps comps0)) := by
  unfold ppsfList
  exact pymedian_congr ((sortComps_perm (filterComps comps0)).map (fun c => c.ppsf.getD 0))

theorem ppsfList_eq_nil_iff (l : List CompRec) : ppsfList l = [] ↔ l = [] := by
  unfold ppsfList
  exact List.map_eq_nil_iff

theorem runValuation_eq_error_iff (s : Subject) (comps0 : List CompRec) (c : String)
    (f : ℤ) (hl : String) :
    runValuation s comps0 c f hl = Except.error ValError.insufficientData
      ↔ filterComps comps0 = [] := by
  simp only [runValuation]
  rw [median_sortComps]
  cases hm : pymedian (ppsfList (filterComps comps0)) with
  | none =>
    have h1 : filterComps comps0 = [] :=
      (ppsfList_eq_nil_iff _).mp ((pymedian_eq_none_iff _).mp hm)
    simpa using h1
  | some m =>
    have h1 : filterComps comps0 ≠ [] := by
      intro hnil
      rw [hnil] at hm
      rw [show ppsfList ([] : List CompRec) = [] from rfl] at hm
      rw [(pymedian_eq_none_iff ([] : List ℚ)).mpr rfl] at hm
      exact Option.noConfusion hm
    simpa using h1

theorem runValuation_eq_ok (s : Subject) (comps0 : List CompRec) (c : String)
    (f : ℤ) (hl : String) (m : ℚ)
    (hm : pymedian (ppsfList (filterComps comps0)) = some m) :
    runValuation s comps0 c f hl
      = Except.ok (valuationFigures s (sortComps (filterComps comps0)) c f hl m) := by
  simp only [runValuation]
  rw [median_sortComps, hm]

theorem run_comps_def (today : ℤ) (raw : List RawComp) (p : Payload) :
    run_comps today raw p
      = runValuation (mkSubject p.address p.subject_overrides)
          (raw.map (augment today (mkSubject p.address p.subject_overrides)))
          (pyLower (pyOrStr p.condition "fair")) (pyOrInt p.assignment_fee 20000)
          (pyLower (pyOrStr p.highlight_tier "aggressive")) := rfl

theorem valuationFigures_arv (s : Subject) (comps : List CompRec) (c : String)
    (f : ℤ) (hl : String) (m : ℚ) :
    (valuationFigures s comps c f hl m).arv = roundHalfEven (m * (s.sqft : ℚ)) := rfl

theorem valuationFigures_rehab (s : Subject) (comps : List CompRec) (c : String)
    (f : ℤ) (hl : String) (m : ℚ) :
    (valuationFigures s comps c f hl m).rehab_cost
      = roundHalfEven ((s.sqft : ℚ) * REHAB_PSF c) := rfl

theorem valuationFigures_comps (s : Subject) (comps : List CompRec) (c : String)
    (f : ℤ) (hl : String) (m : ℚ) :
    (valuationFigures s comps c f hl m).comps = comps := rfl

theorem runValuation_eq_error_of_none (s : Subject) (comps0 : List CompRec) (c : String)
    (f : ℤ) (hl : String)
    (hm : pymedian (ppsfList (filterComps comps0)) = none) :
    runValuation s comps0 c f hl = Except.error ValError.insufficientData := by
  simp only [runValuation]
  rw [median_sortComps, hm]

theorem ppsfTruthy_augment (today : ℤ) (s : Subject) (r : RawComp) :
    ppsfTruthy (augment today s r) = rawKept r := rfl

theorem augment_ppsf (today : ℤ) (s : Subject) (r : RawComp) :
    (augment today s r).ppsf = pyPpsf r := rfl

theorem augment_daysSinceSale (today : ℤ) (s : Subject) (r : RawComp) :
    (augment today s r).daysSinceSale = days_since today r.soldDay := rfl

/-- The line-190 filter over normalised comparables is the same as filtering
the raw records by `rawKept` and normalising the survivors. -/
theorem filterComps_map_augment (today : ℤ) (s : Subject) (raw : List RawComp) :
    filterComps (raw.map (augment today s)) = (raw.filter rawKept).map (augment today s) := by
  unfold filterComps
  rw [List.filter_map]
  congr 1

theorem ppsfList_map_augment (today : ℤ) (s : Subject) (l : List RawComp) :
    ppsfList (l.map (augment today s)) = l.map (fun r => (pyPpsf r).getD 0) := by
  unfold ppsfList
  rw [List.map_map]
  rfl

/-- The ppsf values the median is taken over depend only on the raw
comparables, not on the subject or the evaluation date. -/
theorem survivors_ppsf (today : ℤ) (s : Subject) (raw : List RawComp) :
    ppsfList (filterComps (raw.map (augment today s)))
      = (raw.filter rawKept).map (fun r => (pyPpsf r).getD 0) := by
  rw [filterComps_map_augment, ppsfList_map_augment]

theorem filterComps_map_augment_ne_nil (today : ℤ) (s : Subject) (raw : List RawComp) :
    filterComps (raw.map (augment today s)) ≠ [] ↔ raw.filter rawKept ≠ [] := by
  rw [filterComps_map_augment]
  simp

/-- C4 counterexample: a comparable whose sold date parses to the day after
the evaluation date gets a negative days-since-sale, so the normaliser's
days-since-sale is not always non-negative as claimed. -/
theorem days_since_negative_cex : days_since 0 1 < 0 := by decide

/-- C4 (amended): days-since-sale equals the current UTC calendar date minus
the parsed sold date (an integer difference with no clamping); it is a
non-negative integer whenever the sold date is not after the current date. -/
theorem days_since_correct (today soldDay : ℤ) (h : soldDay ≤ today) :
    days_since today soldDay = today - soldDay ∧ 0 ≤ days_since today soldDay := by
  unfold days_since
  omega

theorem days_since_correct_witness :
    (3 : ℤ) ≤ 5 ∧ days_since 5 3 = 5 - 3 ∧ 0 ≤ days_since 5 3 := by
  refine ⟨by decide, days_since_correct 5 3 (by decide)⟩

/-- C9 (confirmed): at the `/run_comps` endpoint a supplied value of 0 for
`assignment_fee` or for any `subject_overrides` field (beds, baths, sqft,
year) is treated exactly like an absent field: the documented defaults
(20000, and 3 / 2 / 1627 / 1992) are substituted in its place. -/
theorem zero_fields_use_defaults (addr : String) (so : Overrides) :
    mkSubject addr (some { so with beds := some 0 })
        = mkSubject addr (some { so with beds := none })
  ∧ mkSubject addr (some { so with baths := some 0 })
        = mkSubject addr (some { so with baths := none })
  ∧ mkSubject addr (some { so with sqft := some 0 })
        = mkSubject addr (some { so with sqft := none })
  ∧ mkSubject addr (some { so with year := some 0 })
        = mkSubject addr (some { so with year := none })
  ∧ pyOrInt (some 0) 20000 = pyOrInt none 20000
  ∧ pyOrInt none 20000 = 20000
  ∧ mkSubject addr (some ⟨some 0, some 0, some 0, some 0⟩) = mkSubject addr none
  ∧ mkSubject addr none = ⟨addr, 3, 2, 1627, 1992⟩
  ∧ (∀ (today : ℤ) (raw : List RawComp) (p : Payload),
      run_comps today raw ({ p with
          assignment_fee := some 0
          subject_overrides := some ⟨some 0, some 0, some 0, some 0⟩ })
        = run_comps today raw ({ p with
          assignment_fee := none
          subject_overrides := none })) := by
  refine ⟨by simp [mkSubject, pyOrInt], by simp [mkSubject, pyOrRat],
    by simp [mkSubject, pyOrInt], by simp [mkSubject, pyOrInt],
    by simp [pyOrInt], by simp [pyOrInt], by simp [mkSubject, pyOrInt, pyOrRat],
    by simp [mkSubject, pyOrInt, pyOrRat], ?_⟩
  intro today raw p
  rw [run_comps_def, run_comps_def]
  have hsub : mkSubject p.address (some ⟨some 0, some 0, some 0, some 0⟩)
      = mkSubject p.address none := by simp [mkSubject, pyOrInt, pyOrRat]
  have hfee : pyOrInt (some 0) 20000 = pyOrInt none 20000 := by simp [pyOrInt]
  simp only [hsub, hfee]

/-- C1 (confirmed): when no comparable survives the price-per-area filter,
the valuation fails with the typed insufficient-data error (the
`StatisticsError` of `statistics.median` on empty data) and no valuation —
in particular no ARV, zero or otherwise — is produced. -/
theorem empty_survivors_insufficient_data (today : ℤ) (raw : List RawComp) (p : Payload)
    (h : filterComps (raw.map (augment today (mkSubject p.address p.subject_overrides))) = []) :
    run_comps today raw p = Except.error ValError.insufficientData
      ∧ ∀ v : CompValuation, run_comps today raw p ≠ Except.ok v := by
  have he : run_comps today raw p = Except.error ValError.insufficientData := by
    rw [run_comps_def]
    exact (runValuation_eq_error_iff _ _ _ _ _).mpr h
  exact ⟨he, fun v hv => by rw [he] at hv; exact Except.noConfusion hv⟩

theorem empty_survivors_insufficient_data_witness :
    filterComps ([rawNoArea].map
        (augment 0 (mkSubject payloadBare.address payloadBare.subject_overrides))) = []
      ∧ run_comps 0 [rawNoArea] payloadBare = Except.error ValError.insufficientData
      ∧ ∀ v : CompValuation, run_comps 0 [rawNoArea] payloadBare ≠ Except.ok v := by
  have h : filterComps ([rawNoArea].map
      (augment 0 (mkSubject payloadBare.address payloadBare.subject_overrides))) = [] := by
    rw [filterComps_map_augment]
    simp [rawKept, pyPpsf, rawNoArea, intTruthy]
  exact ⟨h, empty_survivors_insufficient_data 0 [rawNoArea] payloadBare h⟩

/-- C5 (confirmed): whenever the endpoint produces a valuation, its comparable
list is ordered by similarity score descending, and among equal scores by
days-since-sale ascending (smaller days-since-sale first). -/
theorem output_comps_sorted (today : ℤ) (raw : List RawComp) (p : Payload) :
    onOk (run_comps today raw p) (fun v =>
      v.comps.Pairwise (fun a b =>
        b.score < a.score ∨ (a.score = b.score ∧ a.daysSinceSale ≤ b.daysSinceSale))) := by
  rw [run_comps_def]
  cases hm : pymedian (ppsfList (filterComps
      (raw.map (augment today (mkSubject p.address p.subject_overrides))))) with
  | none =>
    rw [runValuation_eq_error_of_none _ _ _ _ _ hm]
    exact trivial
  | some m =>
    rw [runValuation_eq_ok _ _ _ _ _ m hm]
    show ((valuationFigures _ _ _ _ _ m).comps).Pairwise _
    rw [valuationFigures_comps]
    exact sortComps_pairwise _

/-- C6 (confirmed): the rehab rate is 20.0 for condition tag "excellent",
42.5 for "fair", 85.0 for "poor" and 42.5 (the fair rate) for any other or
missing tag (e.g. "luxury"), and whenever the endpoint produces a valuation
its rehab cost is round-half-even(rate × subject area). -/
theorem rehab_cost_from_table (today : ℤ) (raw : List RawComp) (p : Payload) :
    REHAB_PSF "luxury" = 85/2
  ∧ onOk (run_comps today raw p) (fun v =>
      v.rehab_cost = roundHalfEven
        (((mkSubject p.address p.subject_overrides).sqft : ℚ) *
          (if pyLower (pyOrStr p.condition "fair") = "excellent" then 20
           else if pyLower (pyOrStr p.condition "fair") = "fair" then 85/2
           else if pyLower (pyOrStr p.condition "fair") = "poor" then 85
           else 85/2))) := by
  refine ⟨rfl, ?_⟩
  rw [run_comps_def]
  cases hm : pymedian (ppsfList (filterComps
      (raw.map (augment today (mkSubject p.address p.subject_overrides))))) with
  | none =>
    rw [runValuation_eq_error_of_none _ _ _ _ _ hm]
    exact trivial
  | some m =>
    rw [runValuation_eq_ok _ _ _ _ _ m hm]
    show (valuationFigures _ _ _ _ _ m).rehab_cost = _
    rw [valuationFigures_rehab]
    rfl

theorem rawKept_eq_true_iff (r : RawComp) :
    rawKept r = true ↔ ∃ n : ℤ, r.sqft = some n ∧ n ≠ 0 ∧ r.soldPrice / ((n : ℤ) : ℚ) ≠ 0 := by
  unfold rawKept pyPpsf intTruthy
  cases r.sqft with
  | none => simp
  | some n =>
    by_cases hn : n = 0
    · subst hn; simp
    · simp [hn]

theorem pyPpsf_of_kept {r : RawComp} {n : ℤ} (hsq : r.sqft = some n) (hn : n ≠ 0) :
    pyPpsf r = some (r.soldPrice / ((n : ℤ) : ℚ)) := by
  unfold pyPpsf intTruthy
  rw [hsq]
  simp [hn]

/-- C10 (confirmed): every comparable surviving to the ARV median has a
present, nonzero price-per-unit-area — strictly positive for well-formed
records (non-negative price and area); a comparable with price 0 and positive
area is excluded by the same line-190 filter, exactly like one with zero or
missing area, since all three fail the ppsf truthiness test. -/
theorem survivors_ppsf_positive (today : ℤ) (s : Subject) (raw : List RawComp)
    (hp : ∀ r ∈ raw, 0 ≤ r.soldPrice ∧ ∀ n : ℤ, r.sqft = some n → 0 ≤ n) :
    (∀ c ∈ filterComps (raw.map (augment today s)), ∃ q, c.ppsf = some q ∧ 0 < q)
  ∧ (∀ r : RawComp, r.soldPrice = 0 ∨ r.sqft = some 0 ∨ r.sqft = none →
      ppsfTruthy (augment today s r) = false)
  ∧ (∀ (l : List CompRec) (c : CompRec), c ∈ filterComps l ↔ c ∈ l ∧ ppsfTruthy c = true) := by
  refine ⟨?_, ?_, ?_⟩
  · intro c hc
    rw [filterComps_map_augment] at hc
    obtain ⟨r, hr, hcr⟩ := List.mem_map.mp hc
    obtain ⟨hraw, hkept⟩ := List.mem_filter.mp hr
    subst hcr
    rw [augment_ppsf]
    obtain ⟨hprice, harea⟩ := hp r hraw
    obtain ⟨n, hsq, hn, hq⟩ := (rawKept_eq_true_iff r).mp hkept
    rw [pyPpsf_of_kept hsq hn]
    refine ⟨_, rfl, ?_⟩
    have hn0 : (0 : ℤ) < n := lt_of_le_of_ne (harea n hsq) (Ne.symm hn)
    have hnq : (0 : ℚ) < ((n : ℤ) : ℚ) := by exact_mod_cast hn0
    exact lt_of_le_of_ne (div_nonneg hprice hnq.le) (Ne.symm hq)
  · intro r hr
    rw [ppsfTruthy_augment]
    cases hK : rawKept r with
    | false => rfl
    | true =>
      exfalso
      obtain ⟨n, hsq, hn, hq⟩ := (rawKept_eq_true_iff r).mp hK
      rcases hr with hp0 | hs0 | hsn
      · exact hq (by rw [hp0, zero_div])
      · rw [hs0] at hsq
        exact hn (Option.some_injective _ hsq.symm)
      · rw [hsn] at hsq
        exact Option.noConfusion hsq
  · intro l c
    unfold filterComps
    exact List.mem_filter

theorem survivors_ppsf_positive_witness :
    (∀ r ∈ [rawPpsf100, rawZeroPrice, rawZeroArea, rawNoArea],
        0 ≤ r.soldPrice ∧ ∀ n : ℤ, r.sqft = some n → 0 ≤ n)
  ∧ ((∀ c ∈ filterComps ([rawPpsf100, rawZeroPrice, rawZeroArea, rawNoArea].map
        (augment 0 subjectDefault)), ∃ q, c.ppsf = some q ∧ 0 < q)
    ∧ (∀ r : RawComp, r.soldPrice = 0 ∨ r.sqft = some 0 ∨ r.sqft = none →
        ppsfTruthy (augment 0 subjectDefault r) = false)
    ∧ (∀ (l : List CompRec) (c : CompRec),
        c ∈ filterComps l ↔ c ∈ l ∧ ppsfTruthy c = true)) := by
  have hp : ∀ r ∈ [rawPpsf100, rawZeroPrice, rawZeroArea, rawNoArea],
      0 ≤ r.soldPrice ∧ ∀ n : ℤ, r.sqft = some n → 0 ≤ n := by
    intro r hr
    fin_cases hr <;>
      exact ⟨by norm_num [rawPpsf100, rawZeroPrice, rawZeroArea, rawNoArea],
        fun n hn => by
          simp only [rawPpsf100, rawZeroPrice, rawZeroArea, rawNoArea,
            Option.some.injEq, reduceCtorEq] at hn <;> omega⟩
  exact ⟨hp, survivors_ppsf_positive 0 subjectDefault _ hp⟩

/-- C2 (confirmed): for every request whose filtered comparable set is
non-empty, the endpoint succeeds and the returned ARV equals
round-half-even(median of the surviving comparables' price-per-unit-area ×
subject area); intermediate ratios are exact rationals. -/
theorem arv_rounded_median (today : ℤ) (raw : List RawComp) (p : Payload)
    (h : filterComps (raw.map (augment today (mkSubject p.address p.subject_overrides))) ≠ []) :
    ∃ v m, run_comps today raw p = Except.ok v
      ∧ pymedian (ppsfList (filterComps
          (raw.map (augment today (mkSubject p.address p.subject_overrides))))) = some m
      ∧ v.arv = roundHalfEven (m * ((mkSubject p.address p.subject_overrides).sqft : ℚ)) := by
  obtain ⟨m, hm⟩ := pymedian_ne_none (show ppsfList (filterComps
      (raw.map (augment today (mkSubject p.address p.subject_overrides)))) ≠ []
    from fun hnil => h ((ppsfList_eq_nil_iff _).mp hnil))
  refine ⟨valuationFigures (mkSubject p.address p.subject_overrides)
      (sortComps (filterComps (raw.map (augment today (mkSubject p.address p.subject_overrides)))))
      (pyLower (pyOrStr p.condition "fair")) (pyOrInt p.assignment_fee 20000)
      (pyLower (pyOrStr p.highlight_tier "aggressive")) m, m, ?_, hm, ?_⟩
  · rw [run_comps_def]
    exact runValuation_eq_ok _ _ _ _ _ m hm
  · rw [valuationFigures_arv]

theorem arv_rounded_median_witness :
    filterComps ([rawPpsf300].map
        (augment 0 (mkSubject payloadBare.address payloadBare.subject_overrides))) ≠ []
    ∧ ∃ v m, run_comps 0 [rawPpsf300] payloadBare = Except.ok v
      ∧ pymedian (ppsfList (filterComps ([rawPpsf300].map
          (augment 0 (mkSubject payloadBare.address payloadBare.subject_overrides))))) = some m
      ∧ v.arv = roundHalfEven
          (m * ((mkSubject payloadBare.address payloadBare.subject_overrides).sqft : ℚ)) := by
  have hkept : rawKept rawPpsf300 = true := by
    rw [rawKept_eq_true_iff]
    refine ⟨100, rfl, by norm_num, ?_⟩
    show (rawPpsf300.soldPrice / ((100 : ℤ) : ℚ)) ≠ 0
    norm_num [rawPpsf300]
  have h : filterComps ([rawPpsf300].map
      (augment 0 (mkSubject payloadBare.address payloadBare.subject_overrides))) ≠ [] := by
    rw [filterComps_map_augment]
    simp [List.filter, hkept]
  exact ⟨h, arv_rounded_median 0 [rawPpsf300] payloadBare h⟩

theorem valuationFigures_mao0_buyer (s : Subject) (comps : List CompRec) (c : String)
    (f : ℤ) (hl : String) (m : ℚ) :
    ((valuationFigures s comps c f hl m).mao_rows.getD 0 ⟨"", 0, 0⟩).buyer_max
      = roundHalfEven (((roundHalfEven (m * (s.sqft : ℚ)) : ℤ) : ℚ) * (65/100)
          - ((roundHalfEven ((s.sqft : ℚ) * REHAB_PSF c) : ℤ) : ℚ)) := rfl

theorem valuationFigures_mao0_mao (s : Subject) (comps : List CompRec) (c : String)
    (f : ℤ) (hl : String) (m : ℚ) :
    ((valuationFigures s comps c f hl m).mao_rows.getD 0 ⟨"", 0, 0⟩).your_mao
      = roundHalfEven (((roundHalfEven (m * (s.sqft : ℚ)) : ℤ) : ℚ) * (65/100)
          - ((roundHalfEven ((s.sqft : ℚ) * REHAB_PSF c) : ℤ) : ℚ)) - f := rfl

theorem valuationFigures_highlight_mao0 (s : Subject) (comps : List CompRec) (c : String)
    (f : ℤ) (hl : String) (m : ℚ) (h : labelIdx (tier_map hl) = 0) :
    (valuationFigures s comps c f hl m).highlight_mao
      = ((valuationFigures s comps c f hl m).mao_rows.getD 0 ⟨"", 0, 0⟩).your_mao := by
  simp only [valuationFigures, h]

theorem c7_median : pymedian (ppsfList (filterComps ([rawPpsf35766].map (augment 0
    (mkSubject payloadExample.address payloadExample.subject_overrides))))) = some (35766/100) := by
  have hkept : rawKept rawPpsf35766 = true := by
    rw [rawKept_eq_true_iff]
    refine ⟨100, rfl, by norm_num, ?_⟩
    show rawPpsf35766.soldPrice / ((100 : ℤ) : ℚ) ≠ 0
    norm_num [rawPpsf35766]
  rw [survivors_ppsf]
  simp only [List.filter, hkept, List.map]
  rw [pyPpsf_of_kept (show rawPpsf35766.sqft = some 100 from rfl) (by norm_num)]
  simp only [Option.getD_some]
  rw [show rawPpsf35766.soldPrice / ((100 : ℤ) : ℚ) = 35766/100 by norm_num [rawPpsf35766]]
  exact pymedian_singleton _

theorem c7_arv :
    roundHalfEven ((35766/100 : ℚ)
      * ((mkSubject payloadExample.address payloadExample.subject_overrides).sqft : ℚ))
      = 581913 := by
  have h := roundHalfEven_eq_high ((35766/100 : ℚ)
    * ((mkSubject payloadExample.address payloadExample.subject_overrides).sqft : ℚ)) 581912
    (by show (581912 : ℚ) + 1/2 < 35766/100 * ((1627 : ℤ) : ℚ); push_cast; norm_num)
    (by show (35766/100 : ℚ) * ((1627 : ℤ) : ℚ) < (581912 : ℚ) + 1; push_cast; norm_num)
  rw [h]
  decide

theorem c7_rehab :
    roundHalfEven (((mkSubject payloadExample.address payloadExample.subject_overrides).sqft : ℚ)
      * REHAB_PSF (pyLower (pyOrStr payloadExample.condition "fair"))) = 69148 := by
  have hc : pyLower (pyOrStr payloadExample.condition "fair") = "fair" := by decide
  rw [hc]
  have hr : REHAB_PSF "fair" = 85/2 := by simp [REHAB_PSF]
  rw [hr]
  have h := roundHalfEven_tie
    (((mkSubject payloadExample.address payloadExample.subject_overrides).sqft : ℚ) * (85/2)) 69147
    (by show ((1627 : ℤ) : ℚ) * (85/2) = (69147 : ℚ) + 1/2; push_cast; norm_num)
  rw [h]
  norm_num

theorem c7_buyer :
    roundHalfEven (((581913 : ℤ) : ℚ) * (65/100) - ((69148 : ℤ) : ℚ)) = 309095 := by
  have h := roundHalfEven_eq_low (((581913 : ℤ) : ℚ) * (65/100) - ((69148 : ℤ) : ℚ)) 309095
    (by push_cast; norm_num) (by push_cast; norm_num)
  rw [h]

/-- Everything the worked example evaluates to (shared by the C7 theorems):
against a surviving median ppsf of exactly 357.66 and the default subject,
ARV 581913, rehab 69148, aggressive buyer-max 309095, investor-MAO 289095. -/
theorem c7_all :
    ∃ v, run_comps 0 [rawPpsf35766] payloadExample = Except.ok v
      ∧ pymedian (ppsfList (filterComps ([rawPpsf35766].map (augment 0
          (mkSubject payloadExample.address payloadExample.subject_overrides)))))
          = some (35766/100)
      ∧ v.arv = 581913
      ∧ v.rehab_cost = 69148
      ∧ (v.mao_rows.getD 0 ⟨"", 0, 0⟩).buyer_max = 309095
      ∧ (v.mao_rows.getD 0 ⟨"", 0, 0⟩).your_mao = 289095
      ∧ v.highlight_mao = 289095 := by
  have hm := c7_median
  have hfee : pyOrInt payloadExample.assignment_fee 20000 = 20000 := by
    show pyOrInt (some 20000) 20000 = 20000
    simp [pyOrInt]
  refine ⟨valuationFigures (mkSubject payloadExample.address payloadExample.subject_overrides)
      (sortComps (filterComps ([rawPpsf35766].map (augment 0
        (mkSubject payloadExample.address payloadExample.subject_overrides)))))
      (pyLower (pyOrStr payloadExample.condition "fair"))
      (pyOrInt payloadExample.assignment_fee 20000)
      (pyLower (pyOrStr payloadExample.highlight_tier "aggressive")) (35766/100),
    ?_, hm, ?_, ?_, ?_, ?_, ?_⟩
  · rw [run_comps_def]
    exact runValuation_eq_ok _ _ _ _ _ _ hm
  · rw [valuationFigures_arv]
    exact c7_arv
  · rw [valuationFigures_rehab]
    exact c7_rehab
  · rw [valuationFigures_mao0_buyer, c7_arv, c7_rehab]
    exact c7_buyer
  · rw [valuationFigures_mao0_mao, c7_arv, c7_rehab, c7_buyer, hfee]
    decide
  · rw [valuationFigures_highlight_mao0 _ _ _ _ _ _ (by decide),
      valuationFigures_mao0_mao, c7_arv, c7_rehab, c7_buyer, hfee]
    decide

/-- C7 counterexample: with subject area 1627, condition fair, assignment fee
20000 and surviving median ppsf exactly 357.66, the code returns an ARV of
581913 — round-half-even(357.66 × 1627) = 581913, not the claimed 582012 —
and accordingly aggressive buyer-max 309095 ≠ 309160 and investor-MAO
289095 ≠ 289160 (rehab 69148 does match). -/
theorem example_request_figures_cex :
    ∃ v, run_comps 0 [rawPpsf35766] payloadExample = Except.ok v
      ∧ pymedian (ppsfList (filterComps ([rawPpsf35766].map (augment 0
          (mkSubject payloadExample.address payloadExample.subject_overrides)))))
          = some (35766/100)
      ∧ v.arv ≠ 582012
      ∧ (v.mao_rows.getD 0 ⟨"", 0, 0⟩).buyer_max ≠ 309160
      ∧ (v.mao_rows.getD 0 ⟨"", 0, 0⟩).your_mao ≠ 289160 := by
  obtain ⟨v, hrun, hm, harv, _, hbm, hmao, _⟩ := c7_all
  exact ⟨v, hrun, hm, by rw [harv]; decide, by rw [hbm]; decide, by rw [hmao]; decide⟩

/-- C7 (amended): for a request with subject area 1627 sqft, condition tag
fair, a surviving-comparable median price-per-unit-area of exactly 357.66,
and assignment fee 20000: the ARV equals 581913 (round-half-even of
357.66 × 1627 = 581912.82), the rehab cost equals 69148, the aggressive-tier
(65 percent) buyer-max equals 309095, and the investor-MAO equals 289095. -/
theorem example_request_figures :
    ∃ v, run_comps 0 [rawPpsf35766] payloadExample = Except.ok v
      ∧ pymedian (ppsfList (filterComps ([rawPpsf35766].map (augment 0
          (mkSubject payloadExample.address payloadExample.subject_overrides)))))
          = some (35766/100)
      ∧ v.arv = 581913
      ∧ v.rehab_cost = 69148
      ∧ (v.mao_rows.getD 0 ⟨"", 0, 0⟩).buyer_max = 309095
      ∧ (v.mao_rows.getD 0 ⟨"", 0, 0⟩).your_mao = 289095
      ∧ v.highlight_mao = 289095 := c7_all

theorem mkSubject_pWithSqft (p : Payload) (A : ℤ) (hA : A ≠ 0) :
    (mkSubject (pWithSqft p A).address (pWithSqft p A).subject_overrides).sqft = A := by
  simp [mkSubject, pWithSqft, pyOrInt, hA]

/-- The median ppsf the valuation uses, written subject-independently. -/
theorem median_of_raw (today : ℤ) (s : Subject) (raw : List RawComp) :
    pymedian (ppsfList (filterComps (raw.map (augment today s))))
      = pymedian ((raw.filter rawKept).map (fun r => (pyPpsf r).getD 0)) := by
  rw [survivors_ppsf]

/-- C8 counterexample: with a fixed comparable set of median ppsf 0.25, the
ARV for subject area 2 is round(0.5) = 0 but for the doubled area 4 it is
round(1.0) = 1 ≠ 2 × 0, so the rounded ARV is not exactly linear in area. -/
theorem arv_not_linear_cex :
    ∃ v v2, run_comps 0 [rawPpsfQuarter] (pWithSqft payloadBare 2) = Except.ok v
      ∧ run_comps 0 [rawPpsfQuarter] (pWithSqft payloadBare 4) = Except.ok v2
      ∧ v.arv = 0 ∧ v2.arv = 1 ∧ v2.arv ≠ 2 * v.arv := by
  have hkq : rawKept rawPpsfQuarter = true := by
    rw [rawKept_eq_true_iff]
    refine ⟨4, rfl, by norm_num, ?_⟩
    show rawPpsfQuarter.soldPrice / ((4 : ℤ) : ℚ) ≠ 0
    norm_num [rawPpsfQuarter]
  have hmq : ∀ s : Subject,
      pymedian (ppsfList (filterComps ([rawPpsfQuarter].map (augment 0 s)))) = some (1/4) := by
    intro s
    rw [survivors_ppsf]
    simp only [List.filter, hkq, List.map]
    rw [pyPpsf_of_kept (show rawPpsfQuarter.sqft = some 4 from rfl) (by norm_num)]
    simp only [Option.getD_some]
    rw [show rawPpsfQuarter.soldPrice / ((4 : ℤ) : ℚ) = 1/4 by norm_num [rawPpsfQuarter]]
    exact pymedian_singleton _
  refine ⟨valuationFigures _ _ _ _ _ (1/4), valuationFigures _ _ _ _ _ (1/4),
    by rw [run_comps_def]; exact runValuation_eq_ok _ _ _ _ _ _ (hmq _),
    by rw [run_comps_def]; exact runValuation_eq_ok _ _ _ _ _ _ (hmq _), ?_, ?_, ?_⟩
  · rw [valuationFigures_arv, mkSubject_pWithSqft _ _ (by decide)]
    have h := roundHalfEven_tie ((1/4 : ℚ) * ((2 : ℤ) : ℚ)) 0
      (by push_cast; norm_num)
    rw [h]
    norm_num
  · rw [valuationFigures_arv, mkSubject_pWithSqft _ _ (by decide)]
    have h := roundHalfEven_eq_low ((1/4 : ℚ) * ((4 : ℤ) : ℚ)) 1
      (by push_cast; norm_num) (by push_cast; norm_num)
    rw [h]
  · rw [valuationFigures_arv, valuationFigures_arv,
      mkSubject_pWithSqft _ _ (show (2:ℤ) ≠ 0 by decide),
      mkSubject_pWithSqft _ _ (show (4:ℤ) ≠ 0 by decide)]
    have h2 := roundHalfEven_tie ((1/4 : ℚ) * ((2 : ℤ) : ℚ)) 0 (by push_cast; norm_num)
    have h4 := roundHalfEven_eq_low ((1/4 : ℚ) * ((4 : ℤ) : ℚ)) 1
      (by push_cast; norm_num) (by push_cast; norm_num)
    rw [h2, h4]
    norm_num

/-- C8 (amended): for a fixed comparable set, the pre-rounding ARV
(median ppsf × subject area) scales exactly linearly in subject area, and the
rounded ARV for area 2A differs from twice the rounded ARV for area A by at
most one dollar (the half-even rounding of the final value breaks exact
equality, as the counterexample shows). -/
theorem arv_double_area (today : ℤ) (raw : List RawComp) (p : Payload) (A : ℤ)
    (hA : A ≠ 0) (hne : raw.filter rawKept ≠ []) :
    ∃ v v2 m,
      run_comps today raw (pWithSqft p A) = Except.ok v
      ∧ run_comps today raw (pWithSqft p (2 * A)) = Except.ok v2
      ∧ pymedian ((raw.filter rawKept).map (fun r => (pyPpsf r).getD 0)) = some m
      ∧ m * ((2 * A : ℤ) : ℚ) = 2 * (m * (A : ℚ))
      ∧ v.arv = roundHalfEven (m * (A : ℚ))
      ∧ v2.arv = roundHalfEven (2 * (m * (A : ℚ)))
      ∧ |v2.arv - 2 * v.arv| ≤ 1 := by
  have h2A : (2 : ℤ) * A ≠ 0 := mul_ne_zero two_ne_zero hA
  have hlist : (raw.filter rawKept).map (fun r => (pyPpsf r).getD 0) ≠ [] := by
    intro hnil
    exact hne (List.map_eq_nil_iff.mp hnil)
  obtain ⟨m, hm⟩ := pymedian_ne_none hlist
  have hcast : m * ((2 * A : ℤ) : ℚ) = 2 * (m * (A : ℚ)) := by push_cast; ring
  refine ⟨valuationFigures _ _ _ _ _ m, valuationFigures _ _ _ _ _ m, m,
    by rw [run_comps_def]
       exact runValuation_eq_ok _ _ _ _ _ _ ((median_of_raw _ _ _).trans hm),
    by rw [run_comps_def]
       exact runValuation_eq_ok _ _ _ _ _ _ ((median_of_raw _ _ _).trans hm),
    hm, hcast, ?_, ?_, ?_⟩
  · rw [valuationFigures_arv, mkSubject_pWithSqft _ _ hA]
  · rw [valuationFigures_arv, mkSubject_pWithSqft _ _ h2A, hcast]
  · rw [valuationFigures_arv, valuationFigures_arv,
      mkSubject_pWithSqft _ _ hA, mkSubject_pWithSqft _ _ h2A, hcast]
    exact roundHalfEven_two_mul (m * (A : ℚ))

theorem arv_double_area_witness :
    (100 : ℤ) ≠ 0
  ∧ [rawPpsf100].filter rawKept ≠ []
  ∧ (∃ v v2 m,
      run_comps 0 [rawPpsf100] (pWithSqft payloadBare 100) = Except.ok v
      ∧ run_comps 0 [rawPpsf100] (pWithSqft payloadBare (2 * 100)) = Except.ok v2
      ∧ pymedian (([rawPpsf100].filter rawKept).map (fun r => (pyPpsf r).getD 0)) = some m
      ∧ m * ((2 * 100 : ℤ) : ℚ) = 2 * (m * ((100 : ℤ) : ℚ))
      ∧ v.arv = roundHalfEven (m * ((100 : ℤ) : ℚ))
      ∧ v2.arv = roundHalfEven (2 * (m * ((100 : ℤ) : ℚ)))
      ∧ |v2.arv - 2 * v.arv| ≤ 1) := by
  have hk : rawKept rawPpsf100 = true := by
    rw [rawKept_eq_true_iff]
    refine ⟨4, rfl, by norm_num, ?_⟩
    show rawPpsf100.soldPrice / ((4 : ℤ) : ℚ) ≠ 0
    norm_num [rawPpsf100]
  have hne : [rawPpsf100].filter rawKept ≠ [] := by
    simp [List.filter, hk]
  exact ⟨by decide, hne, arv_double_area 0 [rawPpsf100] payloadBare 100 (by decide) hne⟩

theorem roundHalfEven_le {α : Type*} [LinearOrderedField α] [FloorRing α]
    (x : α) (n : ℤ) (h : x ≤ (n : α)) : roundHalfEven x ≤ n := by
  have habs := abs_roundHalfEven_sub x
  rw [abs_le] at habs
  have hlt : ((roundHalfEven x : ℤ) : α) < ((n + 1 : ℤ) : α) := by push_cast; linarith
  have := Int.cast_lt.mp hlt
  omega

/-- For a comparable matching the subject in beds, baths, year and area, every
penalty except the recency term vanishes. -/
theorem score_comp_recency_only (subj : Subject) (comp : CompRec)
    (hb : comp.beds = some subj.beds) (hba : comp.baths = some subj.baths)
    (hy : comp.year = some subj.year) (hs : comp.sqft = some subj.sqft)
    (hsq : 0 ≤ subj.sqft) :
    score_comp subj comp
      = max 0 (roundHalfEven ((100 : ℝ)
          - 20 * ((min comp.daysSinceSale 365 : ℤ) : ℝ) / 365)) := by
  have hbed : |comp.beds.getD 0 - subj.beds| = 0 := by rw [hb]; simp
  have hbath : |comp.baths.getD 0 - subj.baths| = 0 := by rw [hba]; simp
  have hyr : (if subj.year ≠ 0 ∧ comp.year.getD 0 ≠ 0
      then |comp.year.getD 0 - subj.year| else 0) = 0 := by
    rw [hy]
    split <;> simp
  have hcs : ((pyOrInt comp.sqft 1 : ℤ) : ℝ)
      / ((max 1 (if subj.sqft = 0 then 1 else subj.sqft) : ℤ) : ℝ) = 1 := by
    rw [hs]
    rcases eq_or_lt_of_le hsq with h0 | hpos
    · rw [← h0]
      norm_num [pyOrInt]
    · have h1 : subj.sqft ≠ 0 := ne_of_gt hpos
      rw [show pyOrInt (some subj.sqft) 1 = subj.sqft from by simp [pyOrInt, h1]]
      rw [show (if subj.sqft = 0 then 1 else subj.sqft) = subj.sqft from by simp [h1]]
      rw [max_eq_right (by omega : (1 : ℤ) ≤ subj.sqft)]
      have hne0 : ((subj.sqft : ℤ) : ℝ) ≠ 0 := by exact_mod_cast h1
      field_simp
  simp only [score_comp, hbed, hbath, hyr, hcs, Real.log_one, abs_zero]
  norm_num

/-- C3 counterexample: a normalised comparable identical to the subject but
whose sold date is 365 days in the future has days-since-sale -365, and the
scorer returns 120, above the claimed ceiling of 100 (the recency penalty
becomes a bonus for negative days-since-sale). -/
theorem score_above_100_cex :
    100 < score_comp subjectDefault (augment 0 subjectDefault rawFutureSale) := by
  have hb : (augment 0 subjectDefault rawFutureSale).beds = some subjectDefault.beds := rfl
  have hba : (augment 0 subjectDefault rawFutureSale).baths = some subjectDefault.baths := rfl
  have hy : (augment 0 subjectDefault rawFutureSale).year = some subjectDefault.year := rfl
  have hs : (augment 0 subjectDefault rawFutureSale).sqft = some subjectDefault.sqft := rfl
  rw [score_comp_recency_only _ _ hb hba hy hs (by decide)]
  have hdays : (augment 0 subjectDefault rawFutureSale).daysSinceSale = -365 := by decide
  rw [hdays]
  have hmin : min (-365 : ℤ) 365 = -365 := by decide
  rw [hmin]
  have h120 : (100 : ℝ) - 20 * (((-365 : ℤ) : ℤ) : ℝ) / 365 = ((120 : ℤ) : ℝ) := by
    push_cast
    norm_num
  rw [h120, roundHalfEven_intCast]
  decide

/-- C3 (amended): for every subject and normalized comparable with
non-negative days-since-sale (a sold date not in the future), the similarity
score is an integer in [0, 100]; and a comparable identical to the subject in
beds, baths, year and area, sold on the evaluation date, scores exactly 100.
(Without the non-negativity hypothesis the bound fails, as the
counterexample shows.) -/
theorem score_comp_range (subj : Subject) (comp : CompRec)
    (hd : 0 ≤ comp.daysSinceSale) :
    (0 ≤ score_comp subj comp ∧ score_comp subj comp ≤ 100)
  ∧ (comp.beds = some subj.beds → comp.baths = some subj.baths →
      comp.year = some subj.year → comp.sqft = some subj.sqft →
      comp.daysSinceSale = 0 → 0 ≤ subj.sqft → score_comp subj comp = 100) := by
  constructor
  · constructor
    · simp only [score_comp]
      exact le_max_left 0 _
    · simp only [score_comp]
      apply max_le (by norm_num)
      apply roundHalfEven_le
      have p1 : (0 : ℝ) ≤ 20 * ((min comp.daysSinceSale 365 : ℤ) : ℝ) / 365 := by
        have h0 : (0 : ℤ) ≤ min comp.daysSinceSale 365 := le_min hd (by norm_num)
        have h0r : (0 : ℝ) ≤ ((min comp.daysSinceSale 365 : ℤ) : ℝ) := by exact_mod_cast h0
        positivity
      have p2 : (0 : ℝ) ≤ 30 * |Real.log (((pyOrInt comp.sqft 1 : ℤ) : ℝ)
          / ((max 1 (if subj.sqft = 0 then 1 else subj.sqft) : ℤ) : ℝ))| := by positivity
      have p3 : (0 : ℝ) ≤ 8 * ((|comp.beds.getD 0 - subj.beds| : ℤ) : ℝ) := by
        have : (0 : ℝ) ≤ ((|comp.beds.getD 0 - subj.beds| : ℤ) : ℝ) := by
          exact_mod_cast abs_nonneg (comp.beds.getD 0 - subj.beds)
        linarith
      have p4 : (0 : ℝ) ≤ 10 * ((|comp.baths.getD 0 - subj.baths| : ℚ) : ℝ) := by
        have : (0 : ℝ) ≤ ((|comp.baths.getD 0 - subj.baths| : ℚ) : ℝ) := by
          exact_mod_cast abs_nonneg (comp.baths.getD 0 - subj.baths)
        linarith
      have p5 : (0 : ℝ) ≤ 10 * ((min (if subj.year ≠ 0 ∧ comp.year.getD 0 ≠ 0
          then |comp.year.getD 0 - subj.year| else 0) 60 : ℤ) : ℝ) / 60 := by
        have hy0 : (0 : ℤ) ≤ (if subj.year ≠ 0 ∧ comp.year.getD 0 ≠ 0
            then |comp.year.getD 0 - subj.year| else 0) := by
          split
          · exact abs_nonneg _
          · exact le_refl 0
        have h0 : (0 : ℤ) ≤ min (if subj.year ≠ 0 ∧ comp.year.getD 0 ≠ 0
            then |comp.year.getD 0 - subj.year| else 0) 60 := le_min hy0 (by norm_num)
        have h0r : (0 : ℝ) ≤ ((min (if subj.year ≠ 0 ∧ comp.year.getD 0 ≠ 0
            then |comp.year.getD 0 - subj.year| else 0) 60 : ℤ) : ℝ) := by exact_mod_cast h0
        positivity
      push_cast
      push_cast at p1 p2 p3 p4 p5
      linarith
  · intro hb hba hy hs hd0 hsq
    rw [score_comp_recency_only subj comp hb hba hy hs hsq, hd0]
    have hmin : min (0 : ℤ) 365 = 0 := by decide
    rw [hmin]
    have h100 : (100 : ℝ) - 20 * (((0 : ℤ) : ℤ) : ℝ) / 365 = ((100 : ℤ) : ℝ) := by
      push_cast
      norm_num
    rw [h100, roundHalfEven_intCast]
    decide

theorem score_comp_range_witness :
    (0 ≤ (augment 0 subjectDefault rawIdentical).daysSinceSale)
  ∧ (0 ≤ score_comp subjectDefault (augment 0 subjectDefault rawIdentical)
      ∧ score_comp subjectDefault (augment 0 subjectDefault rawIdentical) ≤ 100)
  ∧ score_comp subjectDefault (augment 0 subjectDefault rawIdentical) = 100 := by
  have h := score_comp_range subjectDefault (augment 0 subjectDefault rawIdentical) (by decide)
  exact ⟨by decide, h.1, h.2 rfl rfl rfl rfl (by decide) (by decide)⟩

end CompsBot
